import Mathlib

/-! API gateway handlers of the cilium-net daemon (`server/handlers.go`).

Shallow embedding of the eighteen request handlers of `package server`.
A handler run is a function from the router (the handle on the daemon), the
library routines it calls and the request to the ordered list of actions the
handler performs on the subsystem and on the response writer.
-/

set_option autoImplicit false

namespace server

/-! ## Data model -/

/-- Request and response bodies, kept as strings. -/
abbrev Bytes := String

/-- A Go `error` value: its dynamic type (the fault class) together with the
text its `Error()` method returns. -/
structure GoError where
  cls : String
  msg : String
deriving DecidableEq, Repr

/-- Go `errors.New`: a value of type `*errors.errorString` carrying the text.
`fmt.Errorf(format, args...)` is `errors.New(fmt.Sprintf(format, args...))`,
and the verb `%s` prints an error as the text of its `Error()`. -/
def errors.New (text : String) : GoError := ⟨"*errors.errorString", text⟩

/-- The record types of `common/types` and the result types of the daemon
capabilities. Their declarations are not part of `handlers.go`, which never
looks inside them, so they are parameters of the development. -/
structure DomainTypes where
  Endpoint : Type
  EPOpts : Type
  Labels : Type
  PolicyNode : Type
  SearchContext : Type
  IPAMConfig : Type
  SecCtxLabels : Type
  Ignored : Type
  Decision : Type

/-- The `net/http` status constants used by the handlers. -/
def http.StatusOK : Nat := 200
def http.StatusCreated : Nat := 201
def http.StatusAccepted : Nat := 202
def http.StatusNoContent : Nat := 204

/-- The part of `*http.Request` the handlers read: the path variables that
`mux.Vars(r)` returns (a `map[string]string`) and the body. -/
structure Request where
  vars : List (String × String)
  body : Bytes
deriving DecidableEq, Repr

/-- The capability set behind `router.daemon`. Every capability returns the
Go result tuple: a nil-able result is an `Option` (`none` is `nil`), the error
is `none` when it is `nil`. A slice result is `none` for the nil slice and
`some xs` for a non-nil slice, `some []` being the non-nil slice of length 0. -/
structure Daemon (T : DomainTypes) where
  Ping : String × Option GoError
  EndpointJoin : T.Endpoint → Option GoError
  EndpointLeave : String → Option GoError
  EndpointUpdate : String → T.EPOpts → Option GoError
  EndpointGet : String → Option T.Endpoint × Option GoError
  EndpointsGet : Option (List T.Endpoint) × Option GoError
  AllocateIPs : String → T.IPAMConfig × Option GoError
  ReleaseIPs : String → Option GoError
  PutLabels : T.Labels → T.SecCtxLabels × T.Ignored × Option GoError
  GetLabels : Int → Option T.Labels × Option GoError
  GetLabelsBySHA256 : String → Option T.Labels × Option GoError
  DeleteLabelsByUUID : Int → Option GoError
  DeleteLabelsBySHA256 : String → Option GoError
  GetMaxID : Int × Option GoError
  PolicyAdd : String → T.PolicyNode → Option GoError
  PolicyDelete : String → Option GoError
  PolicyGet : String → Option T.PolicyNode × Option GoError
  PolicyCanConsume : T.SearchContext → T.Decision × Option GoError

/-- The receiver of the handlers: it owns the handle on the daemon. -/
structure Router (T : DomainTypes) where
  daemon : Daemon T

/-- One invocation of a daemon capability, with its arguments. -/
inductive Call (T : DomainTypes) where
  | Ping
  | EndpointJoin (ep : T.Endpoint)
  | EndpointLeave (id : String)
  | EndpointUpdate (id : String) (opts : T.EPOpts)
  | EndpointGet (id : String)
  | EndpointsGet
  | AllocateIPs (containerID : String)
  | ReleaseIPs (containerID : String)
  | PutLabels (labels : T.Labels)
  | GetLabels (id : Int)
  | GetLabelsBySHA256 (sha256sum : String)
  | DeleteLabelsByUUID (id : Int)
  | DeleteLabelsBySHA256 (sha256sum : String)
  | GetMaxID
  | PolicyAdd (path : String) (pn : T.PolicyNode)
  | PolicyDelete (path : String)
  | PolicyGet (path : String)
  | PolicyCanConsume (sc : T.SearchContext)

/-- The values the handlers hand to `json.NewEncoder(w).Encode`. -/
inductive Value (T : DomainTypes) where
  | endpoint (ep : T.Endpoint)
  | endpoints (eps : List T.Endpoint)
  | ipamConfig (c : T.IPAMConfig)
  | labels (l : T.Labels)
  | secCtxLabels (l : T.SecCtxLabels)
  | int (n : Int)
  | policyNode (pn : T.PolicyNode)
  | decision (d : T.Decision)

/-- One action of a handler on the subsystem or on the response writer `w`.
`encode v` is the call `json.NewEncoder(w).Encode(v)`, `fprint s` is
`fmt.Fprint(w, s)`, `serverError err` is `processServerError(w, r, err)`. -/
inductive Event (T : DomainTypes) where
  | call (c : Call T)
  | writeHeader (status : Nat)
  | encode (v : Value T)
  | fprint (s : String)
  | serverError (err : GoError)

/-- The library routines the handlers call whose results depend on code outside
this package: `strconv.Quote` (used in the text of a `*strconv.NumError`),
`json.NewDecoder(r.Body).Decode` at each of the five body types, and the
result of `json.NewEncoder(w).Encode` (`none` is the nil error). -/
structure GoLib (T : DomainTypes) where
  Quote : String → String
  DecodeEndpoint : Bytes → Except GoError T.Endpoint
  DecodeEPOpts : Bytes → Except GoError T.EPOpts
  DecodeLabels : Bytes → Except GoError T.Labels
  DecodePolicyNode : Bytes → Except GoError T.PolicyNode
  DecodeSearchContext : Bytes → Except GoError T.SearchContext
  Encode : Value T → Option GoError

/-! ## `strconv.Atoi` -/

/-- The `*strconv.NumError` of `Atoi`: `strconv.Atoi: parsing "s": reason`. -/
def strconv.numError (quote : String → String) (s reason : String) : GoError :=
  ⟨"*strconv.NumError", "strconv.Atoi: parsing " ++ quote s ++ ": " ++ reason⟩

/-- The two failures of the `strconv` parsers. -/
inductive strconv.ErrKind where
  | ErrSyntax
  | ErrRange
deriving DecidableEq, Repr

/-- Largest value of `uint64`. -/
def strconv.maxUint64 : Nat := 2 ^ 64 - 1

/-- The digit loop of Go `strconv.ParseUint` at base 10 and 64 bits, on the
characters not yet read and the value `n` read so far. Each character is
classified first (anything but a decimal digit is a syntax error), then the
overflow of `uint64` is tested (`n >= cutoff`, then the wrap of `n*10 + d`),
so a range error is returned at the digit that overflows, before any later
character is looked at. -/
def strconv.scanDigits : List Char → Nat → Except strconv.ErrKind Nat
  | [], n => .ok n
  | c :: cs, n =>
    if c.isDigit then
      if n ≥ strconv.maxUint64 / 10 + 1 then .error .ErrRange
      else
        let n1 := (n * 10 + (c.toNat - 48)) % 2 ^ 64
        if n1 < n * 10 ∨ n1 > strconv.maxUint64 then .error .ErrRange
        else strconv.scanDigits cs n1
    else .error .ErrSyntax

/-- Go `strconv.ParseUint(s, 10, 0)` on the characters of `s`: the empty
string is a syntax error, otherwise the digit loop from 0. -/
def strconv.ParseUint (cs : List Char) : Except strconv.ErrKind Nat :=
  if cs.isEmpty then .error .ErrSyntax else strconv.scanDigits cs 0

/-- The signed range check that ends Go `strconv.ParseInt` for the 64-bit
`int` (cutoff `1 << 63`), on the sign and the magnitude `un`. -/
def strconv.signedResult (quote : String → String) (s : String) (neg : Bool) (un : Nat) :
    Except GoError Int :=
  if !neg && un ≥ 2 ^ 63 then .error (strconv.numError quote s "value out of range")
  else if neg && un > 2 ^ 63 then .error (strconv.numError quote s "value out of range")
  else .ok (if neg then -(un : Int) else (un : Int))

/-- Go `strconv.Atoi`, that is `ParseInt(s, 10, 0)` with the `int` of 64 bits:
the empty string is a syntax error; a leading `+` or `-` is picked off; the
rest goes through `ParseUint`, whose syntax error is returned as it is and
whose range error leaves the magnitude at the largest `uint64`; then the
signed range is checked. The short-string fast path of later Go releases
returns the same results. -/
def strconv.Atoi (quote : String → String) (s : String) : Except GoError Int :=
  if s.data.isEmpty then .error (strconv.numError quote s "invalid syntax")
  else
    let signed : Bool × List Char :=
      match s.data with
      | '+' :: cs => (false, cs)
      | '-' :: cs => (true, cs)
      | cs => (false, cs)
    match strconv.ParseUint signed.2 with
    | .error .ErrSyntax => .error (strconv.numError quote s "invalid syntax")
    | .error .ErrRange => strconv.signedResult quote s signed.1 strconv.maxUint64
    | .ok un => strconv.signedResult quote s signed.1 un

/-! ## The handlers -/

section Handlers

variable {T : DomainTypes}

/-- Modelled from the spec: `processServerError`, the Error Translator, is
called by every handler but defined outside `handlers.go`. It is the single
point that turns a failure into a response: it commits a status and writes a
body of its own (spec 4.4). One run of it is one `serverError` action that
records the failure it was handed. -/
def processServerError (err : GoError) : List (Event T) :=
  [Event.serverError err]

def ping (router : Router T) (_lib : GoLib T) (_r : Request) : List (Event T) :=
  .call .Ping ::
    match router.daemon.Ping with
    | (_, some err) => processServerError err
    | (str, none) => [.writeHeader http.StatusOK, .fprint str]

def endpointCreate (router : Router T) (lib : GoLib T) (r : Request) : List (Event T) :=
  match lib.DecodeEndpoint r.body with
  | .error err => processServerError err
  | .ok ep =>
    .call (.EndpointJoin ep) ::
      match router.daemon.EndpointJoin ep with
      | some err => processServerError err
      | none => [.writeHeader http.StatusCreated]

def endpointDelete (router : Router T) (_lib : GoLib T) (r : Request) : List (Event T) :=
  match r.vars.lookup "endpointID" with
  | none => processServerError (errors.New "server received empty endpoint id")
  | some val =>
    .call (.EndpointLeave val) ::
      match router.daemon.EndpointLeave val with
      | some err => processServerError err
      | none => [.writeHeader http.StatusNoContent]

def endpointUpdate (router : Router T) (lib : GoLib T) (r : Request) : List (Event T) :=
  match r.vars.lookup "endpointID" with
  | none => processServerError (errors.New "server received empty endpoint id")
  | some val =>
    match lib.DecodeEPOpts r.body with
    | .error err => processServerError err
    | .ok opts =>
      .call (.EndpointUpdate val opts) ::
        match router.daemon.EndpointUpdate val opts with
        | some err => processServerError err
        | none => [.writeHeader http.StatusAccepted]

def endpointGet (router : Router T) (lib : GoLib T) (r : Request) : List (Event T) :=
  match r.vars.lookup "endpointID" with
  | none => processServerError (errors.New "server received empty endpoint id")
  | some epID =>
    .call (.EndpointGet epID) ::
      match router.daemon.EndpointGet epID with
      | (_, some err) =>
        processServerError (errors.New ("error while getting endpoint: " ++ err.msg))
      | (none, none) => [.writeHeader http.StatusNoContent]
      | (some ep, none) =>
        .writeHeader http.StatusOK :: .encode (.endpoint ep) ::
          match lib.Encode (.endpoint ep) with
          | some err => processServerError err
          | none => []

def endpointsGet (router : Router T) (lib : GoLib T) (_r : Request) : List (Event T) :=
  .call .EndpointsGet ::
    match router.daemon.EndpointsGet with
    | (_, some err) =>
      processServerError (errors.New ("error while getting endpoints: " ++ err.msg))
    | (none, none) => [.writeHeader http.StatusNoContent]
    | (some eps, none) =>
      .writeHeader http.StatusOK :: .encode (.endpoints eps) ::
        match lib.Encode (.endpoints eps) with
        | some err => processServerError err
        | none => []

def allocateIPv6 (router : Router T) (lib : GoLib T) (r : Request) : List (Event T) :=
  match r.vars.lookup "containerID" with
  | none => processServerError (errors.New "server received empty containerID")
  | some containerID =>
    .call (.AllocateIPs containerID) ::
      match router.daemon.AllocateIPs containerID with
      | (_, some err) => processServerError err
      | (ipamConfig, none) =>
        .writeHeader http.StatusCreated :: .encode (.ipamConfig ipamConfig) ::
          match lib.Encode (.ipamConfig ipamConfig) with
          | some err => processServerError err
          | none => []

def releaseIPv6 (router : Router T) (_lib : GoLib T) (r : Request) : List (Event T) :=
  match r.vars.lookup "containerID" with
  | none => processServerError (errors.New "server received empty containerID")
  | some containerID =>
    .call (.ReleaseIPs containerID) ::
      match router.daemon.ReleaseIPs containerID with
      | some err => processServerError err
      | none => [.writeHeader http.StatusNoContent]

/-- The failure built by
`fmt.Errorf("server received invalid UUID '%s': '%s'", idStr, err)`. -/
def invalidUUID (idStr : String) (err : GoError) : GoError :=
  errors.New ("server received invalid UUID \x27" ++ idStr ++ "\x27: \x27" ++ err.msg ++ "\x27")

def getLabels (router : Router T) (lib : GoLib T) (r : Request) : List (Event T) :=
  match r.vars.lookup "uuid" with
  | none => processServerError (errors.New "server received empty labels UUID")
  | some idStr =>
    match strconv.Atoi lib.Quote idStr with
    | .error err => processServerError (invalidUUID idStr err)
    | .ok id =>
      .call (.GetLabels id) ::
        match router.daemon.GetLabels id with
        | (_, some err) => processServerError err
        | (none, none) => [.writeHeader http.StatusNoContent]
        | (some labels, none) =>
          .writeHeader http.StatusOK :: .encode (.labels labels) ::
            match lib.Encode (.labels labels) with
            | some err => processServerError err
            | none => []

def getLabelsBySHA256 (router : Router T) (lib : GoLib T) (r : Request) : List (Event T) :=
  match r.vars.lookup "sha256sum" with
  | none => processServerError (errors.New "server received empty SHA256SUM")
  | some sha256sum =>
    .call (.GetLabelsBySHA256 sha256sum) ::
      match router.daemon.GetLabelsBySHA256 sha256sum with
      | (_, some err) => processServerError err
      | (none, none) => [.writeHeader http.StatusNoContent]
      | (some labels, none) =>
        .writeHeader http.StatusOK :: .encode (.labels labels) ::
          match lib.Encode (.labels labels) with
          | some err => processServerError err
          | none => []

def putLabels (router : Router T) (lib : GoLib T) (r : Request) : List (Event T) :=
  match lib.DecodeLabels r.body with
  | .error err => processServerError err
  | .ok labels =>
    .call (.PutLabels labels) ::
      match router.daemon.PutLabels labels with
      | (_, _, some err) => processServerError err
      | (secCtxLabels, _, none) =>
        .writeHeader http.StatusAccepted :: .encode (.secCtxLabels secCtxLabels) ::
          match lib.Encode (.secCtxLabels secCtxLabels) with
          | some err => processServerError err
          | none => []

def deleteLabelsByUUID (router : Router T) (lib : GoLib T) (r : Request) : List (Event T) :=
  match r.vars.lookup "uuid" with
  | none => processServerError (errors.New "server received empty labels UUID")
  | some idStr =>
    match strconv.Atoi lib.Quote idStr with
    | .error err => processServerError (invalidUUID idStr err)
    | .ok id =>
      .call (.DeleteLabelsByUUID id) ::
        match router.daemon.DeleteLabelsByUUID id with
        | some err => processServerError err
        | none => [.writeHeader http.StatusNoContent]

def deleteLabelsBySHA256 (router : Router T) (_lib : GoLib T) (r : Request) : List (Event T) :=
  match r.vars.lookup "sha256sum" with
  | none => processServerError (errors.New "server received empty sha256sum")
  | some sha256sum =>
    .call (.DeleteLabelsBySHA256 sha256sum) ::
      match router.daemon.DeleteLabelsBySHA256 sha256sum with
      | some err => processServerError err
      | none => [.writeHeader http.StatusNoContent]

def getMaxUUID (router : Router T) (lib : GoLib T) (_r : Request) : List (Event T) :=
  .call .GetMaxID ::
    match router.daemon.GetMaxID with
    | (_, some err) => processServerError err
    | (id, none) =>
      .writeHeader http.StatusOK :: .encode (.int id) ::
        match lib.Encode (.int id) with
        | some err => processServerError err
        | none => []

def policyAdd (router : Router T) (lib : GoLib T) (r : Request) : List (Event T) :=
  match r.vars.lookup "path" with
  | none => processServerError (errors.New "server received empty policy path")
  | some path =>
    match lib.DecodePolicyNode r.body with
    | .error err => processServerError err
    | .ok pn =>
      .call (.PolicyAdd path pn) ::
        match router.daemon.PolicyAdd path pn with
        | some err => processServerError err
        | none => [.writeHeader http.StatusCreated]

def policyDelete (router : Router T) (_lib : GoLib T) (r : Request) : List (Event T) :=
  match r.vars.lookup "path" with
  | none => processServerError (errors.New "server received empty policy path")
  | some path =>
    .call (.PolicyDelete path) ::
      match router.daemon.PolicyDelete path with
      | some err => processServerError err
      | none => [.writeHeader http.StatusNoContent]

def policyGet (router : Router T) (lib : GoLib T) (r : Request) : List (Event T) :=
  match r.vars.lookup "path" with
  | none => processServerError (errors.New "server received empty policy path")
  | some path =>
    .call (.PolicyGet path) ::
      match router.daemon.PolicyGet path with
      | (_, some err) => processServerError err
      | (none, none) => [.writeHeader http.StatusNoContent]
      | (some tree, none) =>
        .writeHeader http.StatusOK :: .encode (.policyNode tree) ::
          match lib.Encode (.policyNode tree) with
          | some err => processServerError err
          | none => []

def policyCanConsume (router : Router T) (lib : GoLib T) (r : Request) : List (Event T) :=
  match lib.DecodeSearchContext r.body with
  | .error err => processServerError err
  | .ok sc =>
    .call (.PolicyCanConsume sc) ::
      match router.daemon.PolicyCanConsume sc with
      | (_, some err) => processServerError err
      | (scr, none) =>
        .writeHeader http.StatusAccepted :: .encode (.decision scr) ::
          match lib.Encode (.decision scr) with
          | some err => processServerError err
          | none => []

/-- The handlers of `handlers.go`, one name per function. -/
inductive Op where
  | ping
  | endpointCreate
  | endpointDelete
  | endpointUpdate
  | endpointGet
  | endpointsGet
  | allocateIPv6
  | releaseIPv6
  | getLabels
  | getLabelsBySHA256
  | putLabels
  | deleteLabelsByUUID
  | deleteLabelsBySHA256
  | getMaxUUID
  | policyAdd
  | policyDelete
  | policyGet
  | policyCanConsume
deriving DecidableEq, Repr

/-- The handler function that carries the name. -/
def Op.handler : Op → Router T → GoLib T → Request → List (Event T)
  | .ping => server.ping
  | .endpointCreate => server.endpointCreate
  | .endpointDelete => server.endpointDelete
  | .endpointUpdate => server.endpointUpdate
  | .endpointGet => server.endpointGet
  | .endpointsGet => server.endpointsGet
  | .allocateIPv6 => server.allocateIPv6
  | .releaseIPv6 => server.releaseIPv6
  | .getLabels => server.getLabels
  | .getLabelsBySHA256 => server.getLabelsBySHA256
  | .putLabels => server.putLabels
  | .deleteLabelsByUUID => server.deleteLabelsByUUID
  | .deleteLabelsBySHA256 => server.deleteLabelsBySHA256
  | .getMaxUUID => server.getMaxUUID
  | .policyAdd => server.policyAdd
  | .policyDelete => server.policyDelete
  | .policyGet => server.policyGet
  | .policyCanConsume => server.policyCanConsume

/-! ## Observations on a handler run -/

/-- The subsystem capability calls of a run, in order. -/
def calls : List (Event T) → List (Call T)
  | [] => []
  | .call c :: es => c :: calls es
  | .writeHeader _ :: es => calls es
  | .encode _ :: es => calls es
  | .fprint _ :: es => calls es
  | .serverError _ :: es => calls es

/-- The statuses the handler itself passes to `w.WriteHeader`, in order. -/
def statusWrites : List (Event T) → List Nat
  | [] => []
  | .call _ :: es => statusWrites es
  | .writeHeader s :: es => s :: statusWrites es
  | .encode _ :: es => statusWrites es
  | .fprint _ :: es => statusWrites es
  | .serverError _ :: es => statusWrites es

/-- The values the handler hands to the JSON encoder of `w`, in order. -/
def encodes : List (Event T) → List (Value T)
  | [] => []
  | .call _ :: es => encodes es
  | .writeHeader _ :: es => encodes es
  | .encode v :: es => v :: encodes es
  | .fprint _ :: es => encodes es
  | .serverError _ :: es => encodes es

/-- Number of body writes of the handler itself (`Encode` and `Fprint`). -/
def bodyWrites : List (Event T) → Nat
  | [] => 0
  | .call _ :: es => bodyWrites es
  | .writeHeader _ :: es => bodyWrites es
  | .encode _ :: es => bodyWrites es + 1
  | .fprint _ :: es => bodyWrites es + 1
  | .serverError _ :: es => bodyWrites es

/-- The failures handed to the Error Translator, in order. -/
def serverErrors : List (Event T) → List GoError
  | [] => []
  | .call _ :: es => serverErrors es
  | .writeHeader _ :: es => serverErrors es
  | .encode _ :: es => serverErrors es
  | .fprint _ :: es => serverErrors es
  | .serverError err :: es => err :: serverErrors es

/-- The actions that follow the first run of the Error Translator. -/
def afterServerError : List (Event T) → List (Event T)
  | [] => []
  | .call _ :: es => afterServerError es
  | .writeHeader _ :: es => afterServerError es
  | .encode _ :: es => afterServerError es
  | .fprint _ :: es => afterServerError es
  | .serverError _ :: es => es

/-- Modelled from the spec: the number of status commits of a run. The body of
`processServerError` is not in `handlers.go`; by the spec the Error Translator
produces the fault response, so each run of it commits a status, as does each
`w.WriteHeader` of the handler. -/
def commits : List (Event T) → Nat
  | [] => 0
  | .call _ :: es => commits es
  | .writeHeader _ :: es => commits es + 1
  | .encode _ :: es => commits es
  | .fprint _ :: es => commits es
  | .serverError _ :: es => commits es + 1

/-! ## The dispatch table of the specification -/

/-- What a capability call gave back: a failure (non-nil error), the absence
signal (nil value, nil error), plain success of a capability that returns
only an error, or success with a value. -/
inductive Outcome (T : DomainTypes) where
  | failure (err : GoError)
  | absent
  | done
  | text (s : String)
  | value (v : Value T)

/-- The outcome of a capability call on a daemon. -/
def Daemon.outcome (d : Daemon T) : Call T → Outcome T
  | .Ping =>
    match d.Ping with
    | (_, some err) => .failure err
    | (s, none) => .text s
  | .EndpointJoin ep => (d.EndpointJoin ep).elim .done .failure
  | .EndpointLeave id => (d.EndpointLeave id).elim .done .failure
  | .EndpointUpdate id opts => (d.EndpointUpdate id opts).elim .done .failure
  | .EndpointGet id =>
    match d.EndpointGet id with
    | (_, some err) => .failure err
    | (none, none) => .absent
    | (some ep, none) => .value (.endpoint ep)
  | .EndpointsGet =>
    match d.EndpointsGet with
    | (_, some err) => .failure err
    | (none, none) => .absent
    | (some eps, none) => .value (.endpoints eps)
  | .AllocateIPs id =>
    match d.AllocateIPs id with
    | (_, some err) => .failure err
    | (c, none) => .value (.ipamConfig c)
  | .ReleaseIPs id => (d.ReleaseIPs id).elim .done .failure
  | .PutLabels l =>
    match d.PutLabels l with
    | (_, _, some err) => .failure err
    | (first, _, none) => .value (.secCtxLabels first)
  | .GetLabels id =>
    match d.GetLabels id with
    | (_, some err) => .failure err
    | (none, none) => .absent
    | (some l, none) => .value (.labels l)
  | .GetLabelsBySHA256 sha =>
    match d.GetLabelsBySHA256 sha with
    | (_, some err) => .failure err
    | (none, none) => .absent
    | (some l, none) => .value (.labels l)
  | .DeleteLabelsByUUID id => (d.DeleteLabelsByUUID id).elim .done .failure
  | .DeleteLabelsBySHA256 sha => (d.DeleteLabelsBySHA256 sha).elim .done .failure
  | .GetMaxID =>
    match d.GetMaxID with
    | (_, some err) => .failure err
    | (n, none) => .value (.int n)
  | .PolicyAdd path pn => (d.PolicyAdd path pn).elim .done .failure
  | .PolicyDelete path => (d.PolicyDelete path).elim .done .failure
  | .PolicyGet path =>
    match d.PolicyGet path with
    | (_, some err) => .failure err
    | (none, none) => .absent
    | (some pn, none) => .value (.policyNode pn)
  | .PolicyCanConsume sc =>
    match d.PolicyCanConsume sc with
    | (_, some err) => .failure err
    | (dec, none) => .value (.decision dec)

/-- The success column of the dispatch table: the status of each operation and
whether a body is listed. `ping` is not a row of the table. -/
def successRow : Op → Option (Nat × Bool)
  | .ping => none
  | .endpointCreate => some (201, false)
  | .endpointDelete => some (204, false)
  | .endpointUpdate => some (202, false)
  | .endpointGet => some (200, true)
  | .endpointsGet => some (200, true)
  | .allocateIPv6 => some (201, true)
  | .releaseIPv6 => some (204, false)
  | .putLabels => some (202, true)
  | .getLabels => some (200, true)
  | .getLabelsBySHA256 => some (200, true)
  | .deleteLabelsByUUID => some (204, false)
  | .deleteLabelsBySHA256 => some (204, false)
  | .getMaxUUID => some (200, true)
  | .policyAdd => some (201, false)
  | .policyDelete => some (204, false)
  | .policyGet => some (200, true)
  | .policyCanConsume => some (202, true)

/-- The path variable an operation requires, if it requires one. -/
def requiredParam : Op → Option String
  | .endpointDelete | .endpointUpdate | .endpointGet => some "endpointID"
  | .allocateIPv6 | .releaseIPv6 => some "containerID"
  | .getLabels | .deleteLabelsByUUID => some "uuid"
  | .getLabelsBySHA256 | .deleteLabelsBySHA256 => some "sha256sum"
  | .policyAdd | .policyDelete | .policyGet => some "path"
  | .ping | .endpointCreate | .endpointsGet | .putLabels | .getMaxUUID
  | .policyCanConsume => none

/-- The text that names the missing field of an operation. -/
def missingParamMessage : Op → String
  | .endpointDelete | .endpointUpdate | .endpointGet => "server received empty endpoint id"
  | .allocateIPv6 | .releaseIPv6 => "server received empty containerID"
  | .getLabels | .deleteLabelsByUUID => "server received empty labels UUID"
  | .getLabelsBySHA256 => "server received empty SHA256SUM"
  | .deleteLabelsBySHA256 => "server received empty sha256sum"
  | .policyAdd | .policyDelete | .policyGet => "server received empty policy path"
  | .ping | .endpointCreate | .endpointsGet | .putLabels | .getMaxUUID
  | .policyCanConsume => ""

/-- The failure of decoding the request body into the type the operation
expects; `none` when the body decodes or the operation reads no body. -/
def bodyDecodeFailure (lib : GoLib T) (r : Request) : Op → Option GoError
  | .endpointCreate =>
    match lib.DecodeEndpoint r.body with
    | .error err => some err
    | .ok _ => none
  | .endpointUpdate =>
    match lib.DecodeEPOpts r.body with
    | .error err => some err
    | .ok _ => none
  | .putLabels =>
    match lib.DecodeLabels r.body with
    | .error err => some err
    | .ok _ => none
  | .policyAdd =>
    match lib.DecodePolicyNode r.body with
    | .error err => some err
    | .ok _ => none
  | .policyCanConsume =>
    match lib.DecodeSearchContext r.body with
    | .error err => some err
    | .ok _ => none
  | _ => none

/-- The capability paired with an operation, applied to the decoded arguments
of the request; `none` when the request does not pass validation (a required
path variable is missing, the uuid does not parse, the body does not decode). -/
def pairedCall (lib : GoLib T) (r : Request) : Op → Option (Call T)
  | .ping => some .Ping
  | .endpointCreate =>
    match lib.DecodeEndpoint r.body with
    | .ok ep => some (.EndpointJoin ep)
    | .error _ => none
  | .endpointDelete => (r.vars.lookup "endpointID").map .EndpointLeave
  | .endpointUpdate =>
    match r.vars.lookup "endpointID", lib.DecodeEPOpts r.body with
    | some id, .ok opts => some (.EndpointUpdate id opts)
    | _, _ => none
  | .endpointGet => (r.vars.lookup "endpointID").map .EndpointGet
  | .endpointsGet => some .EndpointsGet
  | .allocateIPv6 => (r.vars.lookup "containerID").map .AllocateIPs
  | .releaseIPv6 => (r.vars.lookup "containerID").map .ReleaseIPs
  | .getLabels =>
    match (r.vars.lookup "uuid").map (strconv.Atoi lib.Quote) with
    | some (.ok n) => some (.GetLabels n)
    | _ => none
  | .getLabelsBySHA256 => (r.vars.lookup "sha256sum").map .GetLabelsBySHA256
  | .putLabels =>
    match lib.DecodeLabels r.body with
    | .ok l => some (.PutLabels l)
    | .error _ => none
  | .deleteLabelsByUUID =>
    match (r.vars.lookup "uuid").map (strconv.Atoi lib.Quote) with
    | some (.ok n) => some (.DeleteLabelsByUUID n)
    | _ => none
  | .deleteLabelsBySHA256 => (r.vars.lookup "sha256sum").map .DeleteLabelsBySHA256
  | .getMaxUUID => some .GetMaxID
  | .policyAdd =>
    match r.vars.lookup "path", lib.DecodePolicyNode r.body with
    | some path, .ok pn => some (.PolicyAdd path pn)
    | _, _ => none
  | .policyDelete => (r.vars.lookup "path").map .PolicyDelete
  | .policyGet => (r.vars.lookup "path").map .PolicyGet
  | .policyCanConsume =>
    match lib.DecodeSearchContext r.body with
    | .ok sc => some (.PolicyCanConsume sc)
    | .error _ => none

end Handlers

/-! ## A concrete instance -/

/-- Domain types for concrete runs: records are kept as their text. -/
abbrev T0 : DomainTypes where
  Endpoint := String
  EPOpts := String
  Labels := String
  PolicyNode := String
  SearchContext := String
  IPAMConfig := String
  SecCtxLabels := Nat
  Ignored := Bool
  Decision := Bool

/-- A daemon on which every capability succeeds with a present value. -/
def okDaemon : Daemon T0 where
  Ping := ("Pong", none)
  EndpointJoin := fun _ => none
  EndpointLeave := fun _ => none
  EndpointUpdate := fun _ _ => none
  EndpointGet := fun id => (some id, none)
  EndpointsGet := (some ["ep1", "ep2"], none)
  AllocateIPs := fun id => (id, none)
  ReleaseIPs := fun _ => none
  PutLabels := fun _ => (7, true, none)
  GetLabels := fun _ => (some "role=frontend", none)
  GetLabelsBySHA256 := fun _ => (some "role=frontend", none)
  DeleteLabelsByUUID := fun _ => none
  DeleteLabelsBySHA256 := fun _ => none
  GetMaxID := (7, none)
  PolicyAdd := fun _ _ => none
  PolicyDelete := fun _ => none
  PolicyGet := fun path => (some path, none)
  PolicyCanConsume := fun _ => (true, none)

/-- A daemon whose queries answer with the absence signal. -/
def absentDaemon : Daemon T0 :=
  { okDaemon with
    EndpointGet := fun _ => (none, none)
    EndpointsGet := (none, none)
    GetLabels := fun _ => (none, none)
    GetLabelsBySHA256 := fun _ => (none, none)
    PolicyGet := fun _ => (none, none) }

/-- A daemon whose endpoint list is a non-nil collection of length zero. -/
def emptyListDaemon : Daemon T0 :=
  { okDaemon with EndpointsGet := (some [], none) }

/-- The failure the failing daemon reports. -/
def boom : GoError := ⟨"*daemon.NotFound", "boom"⟩

/-- A daemon on which every capability fails with `boom`. -/
def failingDaemon : Daemon T0 where
  Ping := ("", some boom)
  EndpointJoin := fun _ => some boom
  EndpointLeave := fun _ => some boom
  EndpointUpdate := fun _ _ => some boom
  EndpointGet := fun _ => (none, some boom)
  EndpointsGet := (none, some boom)
  AllocateIPs := fun _ => ("", some boom)
  ReleaseIPs := fun _ => some boom
  PutLabels := fun _ => (0, false, some boom)
  GetLabels := fun _ => (none, some boom)
  GetLabelsBySHA256 := fun _ => (none, some boom)
  DeleteLabelsByUUID := fun _ => some boom
  DeleteLabelsBySHA256 := fun _ => some boom
  GetMaxID := (0, some boom)
  PolicyAdd := fun _ _ => some boom
  PolicyDelete := fun _ => some boom
  PolicyGet := fun _ => (none, some boom)
  PolicyCanConsume := fun _ => (false, some boom)

/-- Routers over the concrete daemons. -/
def okRouter : Router T0 := ⟨okDaemon⟩
def absentRouter : Router T0 := ⟨absentDaemon⟩
def emptyListRouter : Router T0 := ⟨emptyListDaemon⟩
def failingRouter : Router T0 := ⟨failingDaemon⟩

/-- The failure of decoding an empty body. -/
def eof : GoError := ⟨"*errors.errorString", "EOF"⟩

/-- Library routines for concrete runs: an empty body does not decode, any
other body decodes to its text, and every encoding succeeds. -/
def okLib : GoLib T0 where
  Quote := fun s => "\x22" ++ s ++ "\x22"
  DecodeEndpoint := fun b => if b = "" then .error eof else .ok b
  DecodeEPOpts := fun b => if b = "" then .error eof else .ok b
  DecodeLabels := fun b => if b = "" then .error eof else .ok b
  DecodePolicyNode := fun b => if b = "" then .error eof else .ok b
  DecodeSearchContext := fun b => if b = "" then .error eof else .ok b
  Encode := fun _ => none

/-- The failure of a write on a closed connection. -/
def brokenPipe : GoError := ⟨"*net.OpError", "write: broken pipe"⟩

/-- Library routines on which every encoding fails. -/
def brokenLib : GoLib T0 :=
  { okLib with Encode := fun _ => some brokenPipe }

end server

/-! ## Theorems -/

namespace server

section Claims

variable {T : DomainTypes}

/-- C9: in every handler, on every path, nothing follows the run of the Error
Translator (no status write, no body write, no encoding, no capability call),
and the Error Translator runs at most once per request. -/
theorem translator_is_last (op : Op) (router : Router T) (lib : GoLib T) (r : Request) :
    afterServerError (op.handler router lib r) = [] ∧
      (serverErrors (op.handler router lib r)).length ≤ 1 := by
  cases op <;>
    simp only [Op.handler, ping, endpointCreate, endpointDelete, endpointUpdate, endpointGet,
      endpointsGet, allocateIPv6, releaseIPv6, getLabels, getLabelsBySHA256, putLabels,
      deleteLabelsByUUID, deleteLabelsBySHA256, getMaxUUID, policyAdd, policyDelete, policyGet,
      policyCanConsume, processServerError] <;>
    (repeat' split) <;>
    simp [afterServerError, serverErrors]

/-- C10: a request that passes validation makes the handler invoke exactly the
capability paired with the operation, once, on the decoded arguments; on no
path does a handler make two capability calls. -/
theorem one_paired_call (op : Op) (router : Router T) (lib : GoLib T) (r : Request) :
    (∀ c, pairedCall lib r op = some c → calls (op.handler router lib r) = [c]) ∧
      (calls (op.handler router lib r)).length ≤ 1 := by
  refine ⟨fun c h => ?_, ?_⟩
  · cases op <;>
      simp only [Op.handler, pairedCall, ping, endpointCreate, endpointDelete, endpointUpdate,
        endpointGet, endpointsGet, allocateIPv6, releaseIPv6, getLabels, getLabelsBySHA256,
        putLabels, deleteLabelsByUUID, deleteLabelsBySHA256, getMaxUUID, policyAdd, policyDelete,
        policyGet, policyCanConsume, processServerError] at h ⊢ <;>
      (repeat' split) <;>
      simp_all [calls]
  · cases op <;>
      simp only [Op.handler, ping, endpointCreate, endpointDelete, endpointUpdate,
        endpointGet, endpointsGet, allocateIPv6, releaseIPv6, getLabels, getLabelsBySHA256,
        putLabels, deleteLabelsByUUID, deleteLabelsBySHA256, getMaxUUID, policyAdd, policyDelete,
        policyGet, policyCanConsume, processServerError] <;>
      (repeat' split) <;>
      simp [calls]

/-- C8 (amended): every path of every handler commits a status; the status is
committed exactly once on every path on which no encoding of a success value
fails; when the encoding of the success value fails there are two commits,
the success status of the handler and then that of the Error Translator. -/
theorem commits_once_unless_encoding_fails (op : Op) (router : Router T) (lib : GoLib T)
    (r : Request) :
    1 ≤ commits (op.handler router lib r) ∧
      ((∀ v, v ∈ encodes (op.handler router lib r) → lib.Encode v = none) →
        commits (op.handler router lib r) = 1) ∧
      (∀ v, v ∈ encodes (op.handler router lib r) → lib.Encode v ≠ none →
        commits (op.handler router lib r) = 2 ∧
          (statusWrites (op.handler router lib r)).length = 1 ∧
          (serverErrors (op.handler router lib r)).length = 1) := by
  cases op <;>
    simp only [Op.handler, ping, endpointCreate, endpointDelete, endpointUpdate, endpointGet,
      endpointsGet, allocateIPv6, releaseIPv6, getLabels, getLabelsBySHA256, putLabels,
      deleteLabelsByUUID, deleteLabelsBySHA256, getMaxUUID, policyAdd, policyDelete, policyGet,
      policyCanConsume, processServerError] <;>
    (repeat' split) <;>
    simp_all [commits, encodes, statusWrites, serverErrors]

/-- C3: a request with a missing required path variable, or whose body does
not decode into the expected type, ends at the Error Translator: the handler
run is the single action of handing it a failure (for a missing variable the
failure whose text names the field, for a body the decoding error), with no
capability call and no status written by the handler. -/
theorem malformed_request_stops_at_translator (op : Op) (router : Router T) (lib : GoLib T)
    (r : Request) :
    (∀ p, requiredParam op = some p → r.vars.lookup p = none →
        op.handler router lib r = [.serverError (errors.New (missingParamMessage op))]) ∧
      (∀ err, bodyDecodeFailure lib r op = some err →
        (∀ p, requiredParam op = some p → r.vars.lookup p ≠ none) →
        op.handler router lib r = [.serverError err]) ∧
      (((∃ p, requiredParam op = some p ∧ r.vars.lookup p = none) ∨
          (∃ err, bodyDecodeFailure lib r op = some err)) →
        ∃ err, op.handler router lib r = [.serverError err] ∧
          calls (op.handler router lib r) = [] ∧
          statusWrites (op.handler router lib r) = []) := by
  have h1 : ∀ p, requiredParam op = some p → r.vars.lookup p = none →
        op.handler router lib r = [.serverError (errors.New (missingParamMessage op))] := by
    intro p hp hmiss
    cases op <;> simp only [requiredParam, Option.some.injEq, reduceCtorEq] at hp <;> subst hp <;>
      simp only [Op.handler, missingParamMessage, endpointDelete, endpointUpdate, endpointGet,
        allocateIPv6, releaseIPv6, getLabels, getLabelsBySHA256,
        deleteLabelsByUUID, deleteLabelsBySHA256, policyAdd, policyDelete, policyGet,
        processServerError, hmiss]
  have h2 : ∀ err, bodyDecodeFailure lib r op = some err →
        (∀ p, requiredParam op = some p → r.vars.lookup p ≠ none) →
        op.handler router lib r = [.serverError err] := by
    intro err hdec hpres
    cases op <;> simp only [bodyDecodeFailure, reduceCtorEq] at hdec
    · simp only [Op.handler, endpointCreate, processServerError]
      split at hdec <;> simp_all
    · have hp := hpres _ rfl
      simp only [Op.handler, endpointUpdate, processServerError]
      split
      · exact absurd ‹_› hp
      · split at hdec <;> simp_all
    · simp only [Op.handler, putLabels, processServerError]
      split at hdec <;> simp_all
    · have hp := hpres _ rfl
      simp only [Op.handler, policyAdd, processServerError]
      split
      · exact absurd ‹_› hp
      · split at hdec <;> simp_all
    · simp only [Op.handler, policyCanConsume, processServerError]
      split at hdec <;> simp_all
  refine ⟨h1, h2, ?_⟩
  rintro (⟨p, hp, hmiss⟩ | ⟨err, hdec⟩)
  · exact ⟨_, h1 p hp hmiss, by rw [h1 p hp hmiss]; exact ⟨rfl, rfl⟩⟩
  · by_cases hpres : ∀ p, requiredParam op = some p → r.vars.lookup p ≠ none
    · exact ⟨_, h2 err hdec hpres, by rw [h2 err hdec hpres]; exact ⟨rfl, rfl⟩⟩
    · push_neg at hpres
      obtain ⟨p, hp, hmiss⟩ := hpres
      exact ⟨_, h1 p hp hmiss, by rw [h1 p hp hmiss]; exact ⟨rfl, rfl⟩⟩

/-- C7 (amended): when the capability call of a validated request fails, every
handler other than `endpointGet` and `endpointsGet` hands the Error Translator
the failure value of the subsystem itself; `endpointGet` and `endpointsGet`
hand it a new failure whose text is `error while getting endpoint: ` (resp.
`error while getting endpoints: `) followed by the text of that failure. -/
theorem subsystem_failure_handed_over (op : Op) (router : Router T) (lib : GoLib T)
    (r : Request) (c : Call T) (err : GoError)
    (hreq : pairedCall lib r op = some c)
    (hfail : router.daemon.outcome c = .failure err) :
    (op ≠ .endpointGet → op ≠ .endpointsGet →
        op.handler router lib r = [.call c, .serverError err]) ∧
      (op = .endpointGet → op.handler router lib r =
        [.call c, .serverError (errors.New ("error while getting endpoint: " ++ err.msg))]) ∧
      (op = .endpointsGet → op.handler router lib r =
        [.call c, .serverError (errors.New ("error while getting endpoints: " ++ err.msg))]) := by
  cases op <;> simp only [pairedCall] at hreq <;> (try split at hreq) <;>
    simp only [Option.map_eq_some', Option.some.injEq, reduceCtorEq] at hreq <;>
    (try obtain ⟨a, ha, rfl⟩ := hreq) <;>
    simp only [Daemon.outcome] at hfail <;>
    simp only [Op.handler, ping, endpointCreate, endpointDelete, endpointUpdate,
      endpointGet, endpointsGet, allocateIPv6, releaseIPv6, getLabels, getLabelsBySHA256,
      putLabels, deleteLabelsByUUID, deleteLabelsBySHA256, getMaxUUID, policyAdd, policyDelete,
      policyGet, policyCanConsume, processServerError] <;>
    (repeat' split) <;>
    simp_all

/-- C1: for every operation of the dispatch table, on a well-formed request
whose capability call succeeds (with a present value where it returns one),
the handler writes exactly the listed success status right after the call,
and then, exactly when the table lists a body, hands the returned value to the
JSON encoder of the response; nothing else follows unless that encoding
fails. -/
theorem success_response (op : Op) (router : Router T) (lib : GoLib T) (r : Request)
    (status : Nat) (hasBody : Bool) (c : Call T)
    (hrow : successRow op = some (status, hasBody))
    (hreq : pairedCall lib r op = some c) :
    (hasBody = false → router.daemon.outcome c = .done →
        op.handler router lib r = [.call c, .writeHeader status]) ∧
      (hasBody = true → ∀ v, router.daemon.outcome c = .value v →
        op.handler router lib r =
          .call c :: .writeHeader status :: .encode v ::
            (match lib.Encode v with
              | some err => [.serverError err]
              | none => [])) := by
  cases op <;> simp only [successRow, Option.some.injEq, Prod.mk.injEq, reduceCtorEq] at hrow <;>
    obtain ⟨rfl, rfl⟩ := hrow <;>
    simp only [pairedCall] at hreq <;> (try split at hreq) <;>
    simp only [Option.map_eq_some', Option.some.injEq, reduceCtorEq] at hreq <;>
    (try obtain ⟨a, ha, rfl⟩ := hreq) <;>
    simp only [Daemon.outcome] <;>
    simp only [Op.handler, ping, endpointCreate, endpointDelete, endpointUpdate,
      endpointGet, endpointsGet, allocateIPv6, releaseIPv6, getLabels, getLabelsBySHA256,
      putLabels, deleteLabelsByUUID, deleteLabelsBySHA256, getMaxUUID, policyAdd, policyDelete,
      policyGet, policyCanConsume, processServerError] <;>
    (repeat' split) <;>
    simp_all [http.StatusOK, http.StatusCreated, http.StatusAccepted, http.StatusNoContent]

/-- C2: for `endpointGet`, `endpointsGet`, `getLabels`, `getLabelsBySHA256` and
`policyGet`, on a well-formed request answered with the absence signal (nil
value, nil error) the handler writes status 204, writes no body and never runs
the Error Translator. -/
theorem absent_is_no_content (op : Op) (router : Router T) (lib : GoLib T) (r : Request)
    (c : Call T)
    (hop : op ∈ [Op.endpointGet, .endpointsGet, .getLabels, .getLabelsBySHA256, .policyGet])
    (hreq : pairedCall lib r op = some c)
    (habs : router.daemon.outcome c = .absent) :
    op.handler router lib r = [.call c, .writeHeader 204] ∧
      bodyWrites (op.handler router lib r) = 0 ∧
      serverErrors (op.handler router lib r) = [] := by
  have h : op.handler router lib r = [.call c, .writeHeader 204] := by
    cases op <;> simp only [List.mem_cons, reduceCtorEq, List.mem_singleton, or_self, or_false,
        false_or, List.not_mem_nil] at hop <;>
      simp only [pairedCall] at hreq <;> (try split at hreq) <;>
      simp only [Option.map_eq_some', Option.some.injEq, reduceCtorEq] at hreq <;>
      (try obtain ⟨a, ha, rfl⟩ := hreq) <;>
      simp only [Daemon.outcome] at habs <;>
      simp only [Op.handler, endpointGet, endpointsGet, getLabels, getLabelsBySHA256,
        policyGet, processServerError] <;>
      (repeat' split) <;>
      simp_all [http.StatusNoContent]
  rw [h]
  exact ⟨rfl, rfl, rfl⟩

/-- C5 (amended): for `policyAdd`, `policyDelete` and `policyGet`, every request
whose variables hold no policy path ends at the Error Translator with the
failure `server received empty policy path`, and no capability is called. -/
theorem missing_policy_path_rejected (op : Op) (router : Router T) (lib : GoLib T)
    (r : Request)
    (hop : op ∈ [Op.policyAdd, .policyDelete, .policyGet])
    (hmiss : r.vars.lookup "path" = none) :
    op.handler router lib r =
        [.serverError (errors.New "server received empty policy path")] ∧
      calls (op.handler router lib r) = [] := by
  have h : op.handler router lib r =
      [.serverError (errors.New "server received empty policy path")] := by
    cases op <;> simp only [List.mem_cons, reduceCtorEq, List.mem_singleton, or_self, or_false,
        false_or, List.not_mem_nil] at hop <;>
      simp only [Op.handler, policyAdd, policyDelete, policyGet, hmiss, processServerError]
  rw [h]
  exact ⟨rfl, rfl⟩

/-- C6 (amended): when `EndpointsGet` answers with the absence signal (the nil
collection, nil error) `endpointsGet` writes 204 and no body; for every non-nil
collection, one of length zero included, it writes 200 and then encodes the
collection; status 200 is written only for a non-nil collection. -/
theorem endpoints_list_nil_is_no_content (router : Router T) (lib : GoLib T) (r : Request) :
    (router.daemon.EndpointsGet = (none, none) →
        endpointsGet router lib r = [.call .EndpointsGet, .writeHeader 204]) ∧
      (∀ eps, router.daemon.EndpointsGet = (some eps, none) →
        endpointsGet router lib r =
          .call .EndpointsGet :: .writeHeader 200 :: .encode (.endpoints eps) ::
            (match lib.Encode (.endpoints eps) with
              | some err => [.serverError err]
              | none => [])) ∧
      (200 ∈ statusWrites (endpointsGet router lib r) →
        ∃ eps, router.daemon.EndpointsGet = (some eps, none)) := by
  refine ⟨fun h => ?_, fun eps h => ?_, ?_⟩
  · simp only [endpointsGet, h, http.StatusNoContent]
  · simp only [endpointsGet, h, http.StatusOK, processServerError]
  · simp only [endpointsGet, processServerError]
    (repeat' split) <;> simp_all [statusWrites, http.StatusNoContent]

end Claims

/-! ## Concrete runs -/

/-- C1 at `endpointGet`: endpoint `ep1` is present, so the run is the call, then
status 200, then the encoding of the endpoint. -/
theorem success_response_witness :
    successRow .endpointGet = some (200, true) ∧
      pairedCall okLib ⟨[("endpointID", "ep1")], ""⟩ .endpointGet =
        some (.EndpointGet "ep1") ∧
      okRouter.daemon.outcome (.EndpointGet "ep1") = .value (.endpoint "ep1") ∧
      Op.handler .endpointGet okRouter okLib ⟨[("endpointID", "ep1")], ""⟩ =
        [.call (.EndpointGet "ep1"), .writeHeader 200, .encode (.endpoint "ep1")] :=
  ⟨rfl, rfl, rfl,
    (success_response .endpointGet okRouter okLib ⟨[("endpointID", "ep1")], ""⟩ 200 true
      (.EndpointGet "ep1") rfl rfl).2 rfl (.endpoint "ep1") rfl⟩

/-- C2 at `policyGet`: a path the daemon does not hold gives 204. -/
theorem absent_is_no_content_witness :
    Op.policyGet ∈ [Op.endpointGet, .endpointsGet, .getLabels, .getLabelsBySHA256,
        .policyGet] ∧
      pairedCall okLib ⟨[("path", "web/db")], ""⟩ .policyGet = some (.PolicyGet "web/db") ∧
      absentRouter.daemon.outcome (.PolicyGet "web/db") = .absent ∧
      Op.handler .policyGet absentRouter okLib ⟨[("path", "web/db")], ""⟩ =
        [.call (.PolicyGet "web/db"), .writeHeader 204] :=
  ⟨by decide, rfl, rfl,
    (absent_is_no_content .policyGet absentRouter okLib ⟨[("path", "web/db")], ""⟩
      (.PolicyGet "web/db") (by decide) rfl rfl).1⟩

/-- C3 at `endpointUpdate` without the `endpointID` variable. -/
theorem malformed_request_stops_at_translator_witness :
    requiredParam .endpointUpdate = some "endpointID" ∧
      (Request.mk [] "opts").vars.lookup "endpointID" = none ∧
      Op.handler .endpointUpdate okRouter okLib ⟨[], "opts"⟩ =
        [.serverError (errors.New "server received empty endpoint id")] :=
  ⟨rfl, rfl,
    (malformed_request_stops_at_translator .endpointUpdate okRouter okLib ⟨[], "opts"⟩).1
      "endpointID" rfl rfl⟩

/-- The two kinds of rejection of a segment that is not an integer literal:
`abc` is a syntax error; in `99999999999999999999x` the twentieth digit
overflows before the `x` is read, a range error; with nineteen digits the `x`
is read first, a syntax error. -/
theorem invalid_uuid_rejection_kinds :
    getLabels okRouter okLib ⟨[("uuid", "abc")], ""⟩ =
        [.serverError (errors.New ("server received invalid UUID \x27abc\x27: " ++
          "\x27strconv.Atoi: parsing \x22abc\x22: invalid syntax\x27"))] ∧
      getLabels okRouter okLib ⟨[("uuid", "99999999999999999999x")], ""⟩ =
        [.serverError (errors.New ("server received invalid UUID " ++
          "\x2799999999999999999999x\x27: " ++
          "\x27strconv.Atoi: parsing \x2299999999999999999999x\x22: value out of range\x27"))] ∧
      getLabels okRouter okLib ⟨[("uuid", "9999999999999999999x")], ""⟩ =
        [.serverError (errors.New ("server received invalid UUID " ++
          "\x279999999999999999999x\x27: " ++
          "\x27strconv.Atoi: parsing \x229999999999999999999x\x22: invalid syntax\x27"))] :=
  ⟨rfl, rfl, rfl⟩

/-- C5, the claim as stated fails: with the policy path variable present and
equal to the empty string, the three handlers call the subsystem with the
empty path and the Error Translator is not run. -/
theorem empty_policy_path_reaches_subsystem :
    policyAdd okRouter okLib ⟨[("path", "")], "node"⟩ =
        [.call (.PolicyAdd "" "node"), .writeHeader 201] ∧
      policyDelete okRouter okLib ⟨[("path", "")], ""⟩ =
        [.call (.PolicyDelete ""), .writeHeader 204] ∧
      policyGet okRouter okLib ⟨[("path", "")], ""⟩ =
        [.call (.PolicyGet ""), .writeHeader 200, .encode (.policyNode "")] :=
  ⟨rfl, rfl, rfl⟩

/-- C5 (amended) at `policyDelete` without the `path` variable. -/
theorem missing_policy_path_rejected_witness :
    Op.policyDelete ∈ [Op.policyAdd, .policyDelete, .policyGet] ∧
      (Request.mk [] "").vars.lookup "path" = none ∧
      Op.handler .policyDelete okRouter okLib ⟨[], ""⟩ =
        [.serverError (errors.New "server received empty policy path")] ∧
      calls (Op.handler .policyDelete okRouter okLib ⟨[], ""⟩) = [] :=
  ⟨by decide, rfl,
    missing_policy_path_rejected .policyDelete okRouter okLib ⟨[], ""⟩ (by decide) rfl⟩

/-- C6, the claim as stated fails: a non-nil collection of length zero is
answered with status 200 and an encoded body, not with 204. -/
theorem empty_endpoint_list_gets_200 :
    emptyListRouter.daemon.EndpointsGet = (some [], none) ∧
      endpointsGet emptyListRouter okLib ⟨[], ""⟩ =
        [.call .EndpointsGet, .writeHeader 200, .encode (.endpoints [])] :=
  ⟨rfl, rfl⟩

/-- C6 (amended) at the nil collection. -/
theorem endpoints_list_nil_is_no_content_witness :
    absentRouter.daemon.EndpointsGet = (none, none) ∧
      endpointsGet absentRouter okLib ⟨[], ""⟩ = [.call .EndpointsGet, .writeHeader 204] :=
  ⟨rfl, (endpoints_list_nil_is_no_content absentRouter okLib ⟨[], ""⟩).1 rfl⟩

/-- C7, the claim as stated fails: `EndpointGet` fails with `boom`, and the
failure handed to the Error Translator is a new value of another class whose
text carries a prefix before `boom`. -/
theorem endpoint_get_rewraps_failure :
    failingRouter.daemon.outcome (.EndpointGet "ep1") = .failure boom ∧
      endpointGet failingRouter okLib ⟨[("endpointID", "ep1")], ""⟩ =
        [.call (.EndpointGet "ep1"),
          .serverError ⟨"*errors.errorString", "error while getting endpoint: boom"⟩] ∧
      (⟨"*errors.errorString", "error while getting endpoint: boom"⟩ : GoError) ≠ boom :=
  ⟨rfl, rfl, by decide⟩

/-- C7 (amended) at `allocateIPv6`: the failure reaches the Error Translator as
the subsystem returned it. -/
theorem subsystem_failure_handed_over_witness :
    pairedCall okLib ⟨[("containerID", "c1")], ""⟩ .allocateIPv6 =
        some (.AllocateIPs "c1") ∧
      failingRouter.daemon.outcome (.AllocateIPs "c1") = .failure boom ∧
      Op.handler .allocateIPv6 failingRouter okLib ⟨[("containerID", "c1")], ""⟩ =
        [.call (.AllocateIPs "c1"), .serverError boom] :=
  ⟨rfl, rfl,
    (subsystem_failure_handed_over .allocateIPv6 failingRouter okLib
      ⟨[("containerID", "c1")], ""⟩ (.AllocateIPs "c1") boom rfl rfl).1
      (by decide) (by decide)⟩

/-- C8, the claim as stated fails: when the encoding of the endpoint fails,
`endpointGet` has written status 200 and then runs the Error Translator, two
commits in one request. -/
theorem encoding_failure_commits_twice :
    endpointGet okRouter brokenLib ⟨[("endpointID", "ep1")], ""⟩ =
        [.call (.EndpointGet "ep1"), .writeHeader 200, .encode (.endpoint "ep1"),
          .serverError brokenPipe] ∧
      commits (endpointGet okRouter brokenLib ⟨[("endpointID", "ep1")], ""⟩) = 2 :=
  ⟨rfl, rfl⟩

/-- C8 (amended) at `getMaxUUID` with a working encoder: one commit. -/
theorem commits_once_unless_encoding_fails_witness :
    (∀ v, v ∈ encodes (Op.handler .getMaxUUID okRouter okLib ⟨[], ""⟩) →
        okLib.Encode v = none) ∧
      commits (Op.handler .getMaxUUID okRouter okLib ⟨[], ""⟩) = 1 :=
  ⟨fun _ _ => rfl,
    (commits_once_unless_encoding_fails .getMaxUUID okRouter okLib ⟨[], ""⟩).2.1
      (fun _ _ => rfl)⟩

/-- C10 at `getLabels`: the segment `42` reaches `GetLabels` as the integer 42. -/
theorem one_paired_call_witness :
    pairedCall okLib ⟨[("uuid", "42")], ""⟩ .getLabels = some (.GetLabels 42) ∧
      calls (Op.handler .getLabels okRouter okLib ⟨[("uuid", "42")], ""⟩) =
        [.GetLabels 42] :=
  ⟨rfl, (one_paired_call .getLabels okRouter okLib ⟨[("uuid", "42")], ""⟩).1 _ rfl⟩

end server
